import Mathlib

/-!
Verification development for the BED record reader of lbergelson/nucleus
(src/nucleus/io/bed_reader.h).

The repository ships only the interface header for `BedReader`; the member
function bodies live in a translation unit that is not part of src/.  The
interface facts (public members, the deleted copy operations, the `Stream()`
accessor, the `const` header field) are embedded directly from the header.
The record-decoding behaviour is modelled from the specification: lines are
split on tab characters, comment/track/browser lines are skipped, the schema
field count is inferred from the first data line, and every decoded line is
validated against that count.

Strings from the C++ side are embedded as lists of characters (`Str`), so
that every definition reduces by kernel computation.
-/

/-- A C++ `string` value, embedded as its character sequence. -/
abbrev Str := List Char

/-- Error taxonomy of the reader, from the specification's error-handling
design: open/read failures, malformed compressed content, unparsable or
absent data lines, a token count disagreeing with the header, and operations
on a closed reader. -/
inductive BedError where
  | IOError : BedError
  | DecompressionError : BedError
  | ParseError : BedError
  | SchemaMismatchError (expected observed : Int) : BedError
  | InvalidStateError : BedError
deriving DecidableEq, Repr

/-- A `tensorflow::Status`-like result: success, or one of the errors. -/
abbrev Status := Except BedError Unit

/-- `nucleus.genomics.v1.BedReaderOptions`: immutable configuration supplied
at open time, opaque to this core beyond being stored and passed through. -/
structure BedReaderOptions where
deriving DecidableEq, Repr

/-- `nucleus.genomics.v1.BedHeader`: holds `num_fields`, the number of
tab-separated columns every record of the file is expected to contain. -/
structure BedHeader where
  num_fields : Nat
deriving DecidableEq, Repr

/-- `nucleus.genomics.v1.BedRecord`: one decoded BED line.  The first three
columns are mandatory; the nine trailing columns are optional, populated
positionally up to the header's field count. -/
structure BedRecord where
  reference_name : Str
  start : Int
  end_ : Int
  name : Option Str
  score : Option Str
  strand : Option Str
  thick_start : Option Str
  thick_end : Option Str
  item_rgb : Option Str
  block_count : Option Str
  block_sizes : Option Str
  block_starts : Option Str
deriving DecidableEq, Repr

/-- The list of a record's optional trailing fields, in fixed BED column
order. -/
def BedRecord.optionalFields (r : BedRecord) : List (Option Str) :=
  [r.name, r.score, r.strand, r.thick_start, r.thick_end, r.item_rgb,
   r.block_count, r.block_sizes, r.block_starts]

/-- The number of populated fields of a record: the three mandatory columns
plus every populated optional column. -/
def BedRecord.numFieldsPopulated (r : BedRecord) : Nat :=
  3 + r.optionalFields.countP Option.isSome

/-- Splits a line on tab characters; `n` tabs yield `n + 1` tokens. -/
def splitOnTab : Str → List Str
  | [] => [[]]
  | c :: cs =>
    if c = '\t' then [] :: splitOnTab cs
    else
      match splitOnTab cs with
      | [] => [[c]]
      | t :: ts => (c :: t) :: ts

/-- Modelled from the spec: the recognized non-data markers (comment, track
and browser declaration lines); the line-classification code is not under
src/. -/
def commentMarkers : List Str :=
  [['#'], ['t', 'r', 'a', 'c', 'k'], ['b', 'r', 'o', 'w', 's', 'e', 'r']]

/-- A line is a genuine data line when it carries none of the recognized
non-data markers. -/
def isDataLine (l : Str) : Bool :=
  ! commentMarkers.any (fun m => m.isPrefixOf l)

/-- The accumulated value of a digit sequence; fails on a non-digit. -/
def parseNatAux : Nat → Str → Option Nat
  | acc, [] => some acc
  | acc, c :: cs =>
    if c.isDigit then parseNatAux (acc * 10 + (c.toNat - 48)) cs else none

/-- Parses a non-empty all-digit token as a natural number. -/
def parseNatDigits : Str → Option Nat
  | [] => none
  | c :: cs => parseNatAux 0 (c :: cs)

/-- Modelled from the spec: integer parsing of the start/end tokens (the
token-to-integer code is not under src/); non-numeric content fails. -/
def parseInt : Str → Option Int
  | '-' :: cs => (parseNatDigits cs).map (fun n => -(n : Int))
  | cs => (parseNatDigits cs).map (fun n => (n : Int))

/-- Modelled from the spec: `Validate` as a pure check against a header
(its body is not under src/; the header only declares it and documents
"Returns OK if the input numTokens equals num_fields in the header").
On mismatch the error carries the expected and the observed counts. -/
def headerValidate (h : BedHeader) (numTokens : Int) : Status :=
  if numTokens = (h.num_fields : Int) then Except.ok ()
  else Except.error (BedError.SchemaMismatchError (h.num_fields : Int) numTokens)

/-- Modelled from the spec: decoding of one data line (the line-processing
code is not under src/).  The token count is validated against the header;
the first three tokens are mandatory, start/end are parsed as integers and
must satisfy start ≤ end; the remaining tokens populate the optional fields
in fixed BED column order. -/
def parseLine (h : BedHeader) (l : Str) : Except BedError BedRecord :=
  match headerValidate h (((splitOnTab l).length : Int)) with
  | Except.error e => Except.error e
  | Except.ok () =>
    match splitOnTab l with
    | chrom :: startTok :: endTok :: rest =>
      match parseInt startTok, parseInt endTok with
      | some s, some e =>
        if e < s then Except.error BedError.ParseError
        else Except.ok
          { reference_name := chrom
            start := s
            end_ := e
            name := rest.get? 0
            score := rest.get? 1
            strand := rest.get? 2
            thick_start := rest.get? 3
            thick_end := rest.get? 4
            item_rgb := rest.get? 5
            block_count := rest.get? 6
            block_sizes := rest.get? 7
            block_starts := rest.get? 8 }
      | _, _ => Except.error BedError.ParseError
    | _ => Except.error BedError.ParseError

/-- Modelled from the spec: the byte content behind a path — either plain
text lines, or transparently compressed content that decompresses to lines
when well formed (the byte-source and zlib layers are external to this
core). -/
inductive ByteContent where
  | plain (lines : List Str) : ByteContent
  | compressed (wellFormed : Bool) (lines : List Str) : ByteContent
deriving DecidableEq, Repr

/-- Modelled from the spec: the decompression filter layered under the line
buffer; malformed compressed content cannot be decoded. -/
def decodeBytes : ByteContent → Except BedError (List Str)
  | ByteContent.plain ls => Except.ok ls
  | ByteContent.compressed true ls => Except.ok ls
  | ByteContent.compressed false _ => Except.error BedError.DecompressionError

/-- A file system: a partial map from paths to byte contents; a path that
cannot be opened is absent. -/
abbrev FileSystem := String → Option ByteContent

/-- The first genuine data line of the decoded content, if any. -/
def firstDataLine (ls : List Str) : Option Str :=
  ls.find? isDataLine

/-- The `BedReader` state: the options and header fixed at open time, the
buffered line content of the decoding pipeline, the open/closed flag, and
whether the underlying byte source is still held. -/
structure BedReader where
  options : BedReaderOptions
  header : BedHeader
  lines : List Str
  closed : Bool
  srcHeld : Bool
deriving DecidableEq, Repr

/-- Modelled from the spec: `BedReader::FromFile` (its body is not under
src/).  Fails with IOError when the path cannot be opened, with
DecompressionError when compressed content cannot be decoded, and with
ParseError when no data line exists to infer a schema; otherwise the header
field count is fixed from the first data line's token count. -/
def BedReader.FromFile (fs : FileSystem) (bed_path : String)
    (options : BedReaderOptions) : Except BedError BedReader :=
  match fs bed_path with
  | none => Except.error BedError.IOError
  | some content =>
    match decodeBytes content with
    | Except.error e => Except.error e
    | Except.ok ls =>
      match firstDataLine ls with
      | none => Except.error BedError.ParseError
      | some l =>
        Except.ok
          { options := options
            header := { num_fields := (splitOnTab l).length }
            lines := ls
            closed := false
            srcHeld := true }

/-- `BedReader::Validate`, as declared in the header: OK iff the input
`numTokens` equals `num_fields` in the header. -/
def BedReader.Validate (r : BedReader) (numTokens : Int) : Status :=
  headerValidate r.header numTokens

/-- `BedReader::Header` accessor: a pure read of the immutable header. -/
def BedReader.Header (r : BedReader) : BedHeader :=
  r.header

/-- `BedReader::Options` accessor: a pure read of the immutable options. -/
def BedReader.Options (r : BedReader) : BedReaderOptions :=
  r.options

/-- Modelled from the spec: `BedReader::Close` (its body is not under
src/).  The first close releases the owned byte source and layered buffers
and flips the reader to closed; a later close is a well-defined no-op
success. -/
def BedReader.Close (r : BedReader) : Status × BedReader :=
  if r.closed then (Except.ok (), r)
  else (Except.ok (), { r with closed := true, srcHeld := false, lines := [] })

/-- The iterable over BED records: bound to the header fixed at open time
and to the buffered line content. -/
structure BedIterable where
  header : BedHeader
  lines : List Str
deriving DecidableEq, Repr

/-- Modelled from the spec: `BedReader::Iterate` (its body is not under
src/).  Fails with InvalidStateError on a closed reader; otherwise yields a
forward cursor over the buffered lines under the fixed header. -/
def BedReader.Iterate (r : BedReader) : Except BedError BedIterable :=
  if r.closed then Except.error BedError.InvalidStateError
  else Except.ok { header := r.header, lines := r.lines }

/-- Modelled from the spec: one full traversal of the line content —
non-data lines are skipped without producing a record, each data line is
decoded, and a decode failure terminates the iteration with that error.
Returns the records yielded before any error, and the terminal error when
one occurred. -/
def readRecords (h : BedHeader) : List Str → List BedRecord × Option BedError
  | [] => ([], none)
  | l :: ls =>
    if isDataLine l then
      match parseLine h l with
      | Except.ok r =>
        ((readRecords h ls).1.cons r, (readRecords h ls).2)
      | Except.error e => ([], some e)
    else readRecords h ls

/-- A full traversal of an iterable: the yielded records and the terminal
error, if any. -/
def BedIterable.records (it : BedIterable) : List BedRecord × Option BedError :=
  readRecords it.header it.lines

/-- Whether a decode result is a success. -/
def exceptIsOk : Except BedError BedRecord → Bool
  | Except.ok _ => true
  | Except.error _ => false

/-- The pieces of the reader's decoding pipeline, as laid out in the private
section of the header: the raw byte source (`src_` / `file_stream_`), the
decompression filter (`zlib_stream_`), and the buffered line source
(`buffered_inputstream_`). -/
inductive PipelineHandle where
  | byteSource : PipelineHandle
  | decompFilter : PipelineHandle
  | lineBuffer : PipelineHandle
deriving DecidableEq, Repr

/-- One public member of the `BedReader` class interface: its name, whether
it is deleted, which pipeline handle (if any) its return value gives the
caller access to, and whether it would produce a second `BedReader` sharing
this reader's file handle and stream state. -/
structure MemberDecl where
  memberName : String
  deleted : Bool
  exposedHandle : Option PipelineHandle
  createsAliasingReader : Bool
deriving DecidableEq, Repr

/-- The public interface of `BedReader`, transcribed member by member from
src/nucleus/io/bed_reader.h lines 58–97: the static factory, the
destructor, the deleted copy constructor and copy assignment (which, were
they not deleted, would create a second reader sharing `src_` and the
stream state), `Iterate`, `Close`, `PythonEnter`, the `Options` and
`Header` accessors, `Stream` (which returns a reference to
`buffered_inputstream_`, the buffered line source), and `Validate`. -/
def bedReaderPublicInterface : List MemberDecl :=
  [{ memberName := "FromFile", deleted := false,
     exposedHandle := none, createsAliasingReader := false },
   { memberName := "destructor", deleted := false,
     exposedHandle := none, createsAliasingReader := false },
   { memberName := "copy_constructor", deleted := true,
     exposedHandle := none, createsAliasingReader := true },
   { memberName := "copy_assignment", deleted := true,
     exposedHandle := none, createsAliasingReader := true },
   { memberName := "Iterate", deleted := false,
     exposedHandle := none, createsAliasingReader := false },
   { memberName := "Close", deleted := false,
     exposedHandle := none, createsAliasingReader := false },
   { memberName := "PythonEnter", deleted := false,
     exposedHandle := none, createsAliasingReader := false },
   { memberName := "Options", deleted := false,
     exposedHandle := none, createsAliasingReader := false },
   { memberName := "Header", deleted := false,
     exposedHandle := none, createsAliasingReader := false },
   { memberName := "Stream", deleted := false,
     exposedHandle := some PipelineHandle.lineBuffer,
     createsAliasingReader := false },
   { memberName := "Validate", deleted := false,
     exposedHandle := none, createsAliasingReader := false }]

theorem countSome_gets (rest : List Str) :
    ([rest.get? 0, rest.get? 1, rest.get? 2, rest.get? 3, rest.get? 4,
      rest.get? 5, rest.get? 6, rest.get? 7, rest.get? 8].countP Option.isSome)
      = min rest.length 9 := by
  rcases rest with _ | ⟨a1, _ | ⟨a2, _ | ⟨a3, _ | ⟨a4, _ | ⟨a5, _ | ⟨a6, _ | ⟨a7, _ | ⟨a8, _ | ⟨a9, tl⟩⟩⟩⟩⟩⟩⟩⟩⟩ <;>
    simp [List.countP, List.countP.go, List.get?]

theorem parseLine_ok {h : BedHeader} {l : Str} {rec : BedRecord}
    (hok : parseLine h l = Except.ok rec) :
    (splitOnTab l).length = h.num_fields ∧ 3 ≤ h.num_fields ∧
    rec.start ≤ rec.end_ ∧ rec.numFieldsPopulated = min h.num_fields 12 := by
  unfold parseLine headerValidate at hok
  split at hok
  · exact absurd hok (by simp)
  · rename_i stat hv
    split at hok
    · rename_i toks chrom startTok endTok rest htoks
      split at hok
      · rename_i s e hs he
        split at hok
        · exact absurd hok (by simp)
        · rename_i hlt
          injection hok with hok
          subst hok
          split at hv
          · rename_i hc
            have hlen : (splitOnTab l).length = h.num_fields := by exact_mod_cast hc
            have hrest : h.num_fields = rest.length + 3 := by
              rw [← hlen, htoks]; simp [List.length_cons]
            refine ⟨hlen, by omega, ?_, ?_⟩
            · show s ≤ e
              omega
            · simp only [BedRecord.numFieldsPopulated, BedRecord.optionalFields]
              rw [countSome_gets]
              omega
          · exact absurd hv (by simp)
      · exact absurd hok (by simp)
    · exact absurd hok (by simp)


theorem firstDataLine_eq_none_iff (ls : List Str) :
    firstDataLine ls = none ↔ ∀ l ∈ ls, isDataLine l = false := by
  simp [firstDataLine, List.find?_eq_none]

theorem readRecords_mem {h : BedHeader} {ls : List Str} {rec : BedRecord}
    (hmem : rec ∈ (readRecords h ls).1) :
    ∃ l ∈ ls, isDataLine l = true ∧ parseLine h l = Except.ok rec := by
  induction ls with
  | nil => simp [readRecords] at hmem
  | cons l ls ih =>
    rw [readRecords] at hmem
    by_cases hd : isDataLine l
    · rw [if_pos hd] at hmem
      cases hp : parseLine h l with
      | error e => rw [hp] at hmem; simp at hmem
      | ok r0 =>
        rw [hp] at hmem
        simp only [List.cons, List.mem_cons] at hmem
        rcases hmem with rfl | hmem
        · exact ⟨l, by simp, hd, hp⟩
        · obtain ⟨l2, hl2, hd2, hp2⟩ := ih hmem
          exact ⟨l2, by simp [hl2], hd2, hp2⟩
    · rw [if_neg hd] at hmem
      obtain ⟨l2, hl2, hd2, hp2⟩ := ih hmem
      exact ⟨l2, by simp [hl2], hd2, hp2⟩

theorem readRecords_wellFormed (h : BedHeader) (ls : List Str)
    (hwf : ∀ l ∈ ls, isDataLine l = true → exceptIsOk (parseLine h l) = true) :
    (readRecords h ls).2 = none ∧
    (readRecords h ls).1.length = ls.countP isDataLine := by
  induction ls with
  | nil => simp [readRecords]
  | cons l ls ih =>
    have ihh := ih (fun l2 hl2 hd2 => hwf l2 (by simp [hl2]) hd2)
    rw [readRecords]
    by_cases hd : isDataLine l
    · have hok := hwf l (by simp) hd
      cases hp : parseLine h l with
      | error e => rw [hp] at hok; simp [exceptIsOk] at hok
      | ok r0 =>
        rw [if_pos hd]
        simp [List.countP_cons, hd, ihh.1, ihh.2]
    · rw [if_neg hd]
      simp [List.countP_cons, hd, ihh.1, ihh.2]

theorem fromFile_ok_inversion {fs : FileSystem} {p : String} {o : BedReaderOptions}
    {r : BedReader} (hr : BedReader.FromFile fs p o = Except.ok r) :
    ∃ c ls l, fs p = some c ∧ decodeBytes c = Except.ok ls ∧
      firstDataLine ls = some l ∧
      r = { options := o, header := { num_fields := (splitOnTab l).length },
            lines := ls, closed := false, srcHeld := true } := by
  unfold BedReader.FromFile at hr
  split at hr
  · exact absurd hr (by simp)
  · rename_i c hc
    split at hr
    · exact absurd hr (by simp)
    · rename_i ls hls
      split at hr
      · exact absurd hr (by simp)
      · rename_i l hl
        injection hr with hr
        exact ⟨c, ls, l, hc, hls, hl, hr.symm⟩

/-- C1: for every reader and integer numTokens, Validate(numTokens) succeeds
iff numTokens equals Header.num_fields; on failure the error is a
SchemaMismatchError carrying the expected count (Header.num_fields) and the
observed count (numTokens). -/
theorem C1_validate_schema_check (r : BedReader) (n : Int) :
    (r.Validate n = Except.ok () ↔ n = ((r.Header).num_fields : Int)) ∧
    (n ≠ ((r.Header).num_fields : Int) →
      r.Validate n = Except.error
        (BedError.SchemaMismatchError ((r.Header).num_fields : Int) n)) := by
  unfold BedReader.Validate BedReader.Header headerValidate
  constructor
  · constructor
    · intro hok
      by_contra hne
      rw [if_neg hne] at hok
      exact absurd hok (by simp)
    · intro he
      rw [if_pos he]
  · intro hne
    rw [if_neg hne]

/-- Witness for C1: a reader with a 3-column header rejects 5 tokens with a
SchemaMismatchError carrying expected 3 and observed 5. -/
theorem C1_validate_schema_check_witness :
    ({ options := {}, header := { num_fields := 3 }, lines := [],
       closed := false, srcHeld := true } : BedReader).Validate 5
      = Except.error (BedError.SchemaMismatchError 3 5) :=
  (C1_validate_schema_check
    { options := {}, header := { num_fields := 3 }, lines := [],
      closed := false, srcHeld := true } 5).2 (by decide)

/-- C2: every record yielded by an iterable obtained from a reader satisfies
start ≤ end, comes from a data line whose token count equals
Header.num_fields (enforced by validation at decode time), and its populated
field count is min Header.num_fields 12 (all twelve BED columns at most). -/
theorem C2_yielded_records_valid (r : BedReader) (it : BedIterable)
    (rec : BedRecord) (hit : r.Iterate = Except.ok it)
    (hmem : rec ∈ (it.records).1) :
    rec.start ≤ rec.end_ ∧
    rec.numFieldsPopulated = min (r.Header).num_fields 12 ∧
    ∃ l ∈ it.lines, isDataLine l = true ∧
      (splitOnTab l).length = (r.Header).num_fields ∧
      parseLine (r.Header) l = Except.ok rec := by
  have hith : it.header = r.Header := by
    unfold BedReader.Iterate at hit
    split at hit
    · exact absurd hit (by simp)
    · injection hit with hit
      rw [← hit]
      rfl
  have hmem2 : rec ∈ (readRecords it.header it.lines).1 := hmem
  obtain ⟨l, hl, hd, hp⟩ := readRecords_mem hmem2
  rw [hith] at hp
  have hok := parseLine_ok hp
  exact ⟨hok.2.2.1, hok.2.2.2, l, hl, hd, hok.1, hp⟩

/-- Witness for C2: the record decoded from the line chr1→100→200 under a
3-column header has start ≤ end. -/
theorem C2_yielded_records_valid_witness :
    ({ reference_name := ['c','h','r','1'], start := 100, end_ := 200,
       name := none, score := none, strand := none, thick_start := none,
       thick_end := none, item_rgb := none, block_count := none,
       block_sizes := none, block_starts := none } : BedRecord).start ≤
    ({ reference_name := ['c','h','r','1'], start := 100, end_ := 200,
       name := none, score := none, strand := none, thick_start := none,
       thick_end := none, item_rgb := none, block_count := none,
       block_sizes := none, block_starts := none } : BedRecord).end_ :=
  (C2_yielded_records_valid
    { options := {}, header := { num_fields := 3 },
      lines := [['c','h','r','1','\t','1','0','0','\t','2','0','0']],
      closed := false, srcHeld := true }
    { header := { num_fields := 3 },
      lines := [['c','h','r','1','\t','1','0','0','\t','2','0','0']] }
    { reference_name := ['c','h','r','1'], start := 100, end_ := 200,
      name := none, score := none, strand := none, thick_start := none,
      thick_end := none, item_rgb := none, block_count := none,
      block_sizes := none, block_starts := none }
    rfl (by decide)).1

/-- C5: a reader that has been closed rejects Iterate with
InvalidStateError; in particular this holds for the state right after any
Close call. -/
theorem C5_iterate_after_close_fails (r : BedReader) :
    (r.closed = true → r.Iterate = Except.error BedError.InvalidStateError) ∧
    ((r.Close).2).Iterate = Except.error BedError.InvalidStateError := by
  constructor
  · intro hc
    unfold BedReader.Iterate
    rw [if_pos hc]
  · unfold BedReader.Close BedReader.Iterate
    by_cases hc : r.closed = true
    · rw [if_pos hc]
      simp [hc]
    · rw [if_neg hc]
      simp

/-- Witness for C5: a concrete closed reader rejects Iterate. -/
theorem C5_iterate_after_close_fails_witness :
    ({ options := {}, header := { num_fields := 3 }, lines := [],
       closed := true, srcHeld := false } : BedReader).Iterate
      = Except.error BedError.InvalidStateError :=
  (C5_iterate_after_close_fails
    { options := {}, header := { num_fields := 3 }, lines := [],
      closed := true, srcHeld := false }).1 rfl

/-- C6: a reader produced by FromFile starts open and holding the byte
source; the first Close succeeds, transitions it to closed and releases the
source; a second Close also returns a well-defined success and leaves the
state untouched, so the release and the open-to-closed transition happen
exactly once. -/
theorem C6_close_idempotent (fs : FileSystem) (p : String)
    (o : BedReaderOptions) (r : BedReader)
    (hr : BedReader.FromFile fs p o = Except.ok r) :
    r.closed = false ∧ r.srcHeld = true ∧
    (r.Close).1 = Except.ok () ∧
    ((r.Close).2).closed = true ∧ ((r.Close).2).srcHeld = false ∧
    (((r.Close).2).Close).1 = Except.ok () ∧
    (((r.Close).2).Close).2 = (r.Close).2 := by
  obtain ⟨c, ls, l, hc, hls, hl, rfl⟩ := fromFile_ok_inversion hr
  refine ⟨rfl, rfl, ?_, ?_, ?_, ?_, ?_⟩ <;> simp [BedReader.Close]

/-- Witness for C6: closing a concrete freshly opened reader succeeds. -/
theorem C6_close_idempotent_witness :
    (({ options := {}, header := { num_fields := 3 },
        lines := [['c','h','r','1','\t','1','0','0','\t','2','0','0']],
        closed := false, srcHeld := true } : BedReader).Close).1
      = Except.ok () :=
  (C6_close_idempotent
    (fun _ => some (ByteContent.plain
      [['c','h','r','1','\t','1','0','0','\t','2','0','0']]))
    "a.bed" {} _ rfl).2.2.1

/-- C3: FromFile fails with IOError exactly when the path cannot be opened,
with DecompressionError exactly when the content is malformed compressed
data, with ParseError exactly when the decoded content has no data line to
infer a schema from, and returns a reader exactly when a first data line
exists. -/
theorem C3_fromFile_error_taxonomy (fs : FileSystem) (p : String)
    (o : BedReaderOptions) :
    (BedReader.FromFile fs p o = Except.error BedError.IOError ↔ fs p = none) ∧
    (BedReader.FromFile fs p o = Except.error BedError.DecompressionError ↔
      ∃ ls, fs p = some (ByteContent.compressed false ls)) ∧
    (BedReader.FromFile fs p o = Except.error BedError.ParseError ↔
      ∃ c ls, fs p = some c ∧ decodeBytes c = Except.ok ls ∧
        ∀ l ∈ ls, isDataLine l = false) ∧
    ((∃ r, BedReader.FromFile fs p o = Except.ok r) ↔
      ∃ c ls l, fs p = some c ∧ decodeBytes c = Except.ok ls ∧
        firstDataLine ls = some l) := by
  rcases hc : fs p with _ | c
  · simp [BedReader.FromFile, hc]
  · rcases c with ls | ⟨wf, ls⟩
    · rcases hfd : firstDataLine ls with _ | l
      · simp [BedReader.FromFile, hc, decodeBytes, hfd,
          ← firstDataLine_eq_none_iff]
      · simp [BedReader.FromFile, hc, decodeBytes, hfd,
          ← firstDataLine_eq_none_iff]
    · rcases wf with _ | _
      · simp [BedReader.FromFile, hc, decodeBytes]
      · rcases hfd : firstDataLine ls with _ | l
        · simp [BedReader.FromFile, hc, decodeBytes, hfd,
            ← firstDataLine_eq_none_iff]
        · simp [BedReader.FromFile, hc, decodeBytes, hfd,
            ← firstDataLine_eq_none_iff]

/-- Witness for C3: an unopenable path fails with IOError. -/
theorem C3_fromFile_error_taxonomy_witness :
    BedReader.FromFile (fun _ => none) "missing.bed" {}
      = Except.error BedError.IOError :=
  (C3_fromFile_error_taxonomy (fun _ => none) "missing.bed" {}).1.mpr rfl

/-- C4: Header.num_fields is derived once at open time from the first data
line, and no later operation changes it: Close (once or twice) preserves
the header and the options, and Iterate hands the same fixed header to the
iterable it returns. -/
theorem C4_header_fixed_for_lifetime :
    (∀ (fs : FileSystem) (p : String) (o : BedReaderOptions) (r : BedReader),
      BedReader.FromFile fs p o = Except.ok r →
      ∃ c ls l, fs p = some c ∧ decodeBytes c = Except.ok ls ∧
        firstDataLine ls = some l ∧
        r.Header = { num_fields := (splitOnTab l).length }) ∧
    (∀ r : BedReader,
      ((r.Close).2).Header = r.Header ∧
      ((((r.Close).2).Close).2).Header = r.Header ∧
      ((r.Close).2).Options = r.Options) ∧
    (∀ (r : BedReader) (it : BedIterable),
      r.Iterate = Except.ok it → it.header = r.Header) := by
  refine ⟨?_, ?_, ?_⟩
  · intro fs p o r hr
    obtain ⟨c, ls, l, hc, hls, hl, rfl⟩ := fromFile_ok_inversion hr
    exact ⟨c, ls, l, hc, hls, hl, rfl⟩
  · intro r
    unfold BedReader.Close
    by_cases hc : r.closed = true <;>
      simp [hc, BedReader.Header, BedReader.Options]
  · intro r it hit
    unfold BedReader.Iterate at hit
    split at hit
    · exact absurd hit (by simp)
    · injection hit with hit
      rw [← hit]
      rfl

/-- Witness for C4: Iterate on a concrete open reader hands out the
reader's own fixed header. -/
theorem C4_header_fixed_for_lifetime_witness :
    ({ header := { num_fields := 3 },
       lines := [['c','h','r','1','\t','1','0','0','\t','2','0','0']] }
       : BedIterable).header
      = ({ options := {}, header := { num_fields := 3 },
           lines := [['c','h','r','1','\t','1','0','0','\t','2','0','0']],
           closed := false, srcHeld := true } : BedReader).Header :=
  C4_header_fixed_for_lifetime.2.2
    { options := {}, header := { num_fields := 3 },
      lines := [['c','h','r','1','\t','1','0','0','\t','2','0','0']],
      closed := false, srcHeld := true }
    { header := { num_fields := 3 },
      lines := [['c','h','r','1','\t','1','0','0','\t','2','0','0']] }
    rfl

/-- C7: for a file whose data lines are all well formed under the inferred
header, one full traversal yields no error and exactly as many records as
the file has genuine data lines; skipped comment/track/browser lines
produce no records. -/
theorem C7_traversal_counts_data_lines (fs : FileSystem) (p : String)
    (o : BedReaderOptions) (c : ByteContent) (ls : List Str)
    (r : BedReader) (it : BedIterable)
    (hc : fs p = some c) (hls : decodeBytes c = Except.ok ls)
    (hr : BedReader.FromFile fs p o = Except.ok r)
    (hit : r.Iterate = Except.ok it)
    (hwf : ∀ l ∈ ls, isDataLine l = true →
      exceptIsOk (parseLine (r.Header) l) = true) :
    (it.records).2 = none ∧
    (it.records).1.length = ls.countP isDataLine := by
  obtain ⟨c2, ls2, l, hc2, hls2, hl2, rfl⟩ := fromFile_ok_inversion hr
  rw [hc] at hc2
  injection hc2 with hc2
  subst hc2
  rw [hls] at hls2
  injection hls2 with hls2
  subst hls2
  have hit2 : it = ⟨{ num_fields := (splitOnTab l).length }, ls⟩ := by
    simp [BedReader.Iterate] at hit
    exact hit.symm
  subst hit2
  exact readRecords_wellFormed _ _ hwf

/-- Witness for C7: a concrete file with one track line and one data line
yields exactly one record, the number of its data lines. -/
theorem C7_traversal_counts_data_lines_witness :
    (({ header := { num_fields := 3 },
        lines := [['t','r','a','c','k',' ','n','a','m','e','=','f','o','o'],
                  ['c','h','r','1','\t','1','0','0','\t','2','0','0']] }
        : BedIterable).records).1.length
      = List.countP isDataLine
          [['t','r','a','c','k',' ','n','a','m','e','=','f','o','o'],
           ['c','h','r','1','\t','1','0','0','\t','2','0','0']] :=
  (C7_traversal_counts_data_lines
    (fun _ => some (ByteContent.plain
      [['t','r','a','c','k',' ','n','a','m','e','=','f','o','o'],
       ['c','h','r','1','\t','1','0','0','\t','2','0','0']]))
    "a.bed" {}
    (ByteContent.plain
      [['t','r','a','c','k',' ','n','a','m','e','=','f','o','o'],
       ['c','h','r','1','\t','1','0','0','\t','2','0','0']])
    [['t','r','a','c','k',' ','n','a','m','e','=','f','o','o'],
     ['c','h','r','1','\t','1','0','0','\t','2','0','0']]
    { options := {}, header := { num_fields := 3 },
      lines := [['t','r','a','c','k',' ','n','a','m','e','=','f','o','o'],
                ['c','h','r','1','\t','1','0','0','\t','2','0','0']],
      closed := false, srcHeld := true }
    { header := { num_fields := 3 },
      lines := [['t','r','a','c','k',' ','n','a','m','e','=','f','o','o'],
                ['c','h','r','1','\t','1','0','0','\t','2','0','0']] }
    rfl rfl rfl rfl (by decide)).2

/-- C8: two readers obtained by FromFile on the same path with the same
options over the same file system are equal, and any iterables they return
produce identical record sequences. -/
theorem C8_reopen_deterministic (fs : FileSystem) (p : String)
    (o : BedReaderOptions) (r1 r2 : BedReader)
    (h1 : BedReader.FromFile fs p o = Except.ok r1)
    (h2 : BedReader.FromFile fs p o = Except.ok r2) :
    r1 = r2 ∧ r1.Iterate = r2.Iterate ∧
    ∀ it1 it2, r1.Iterate = Except.ok it1 → r2.Iterate = Except.ok it2 →
      it1.records = it2.records := by
  rw [h1] at h2
  injection h2 with h2
  subst h2
  refine ⟨rfl, rfl, fun it1 it2 hi1 hi2 => ?_⟩
  rw [hi1] at hi2
  injection hi2 with hi2
  rw [hi2]

/-- Witness for C8: re-opening a concrete one-line file gives equal
readers. -/
theorem C8_reopen_deterministic_witness :
    ({ options := {}, header := { num_fields := 3 },
       lines := [['c','h','r','1','\t','1','0','0','\t','2','0','0']],
       closed := false, srcHeld := true } : BedReader)
      = { options := {}, header := { num_fields := 3 },
          lines := [['c','h','r','1','\t','1','0','0','\t','2','0','0']],
          closed := false, srcHeld := true } :=
  (C8_reopen_deterministic
    (fun _ => some (ByteContent.plain
      [['c','h','r','1','\t','1','0','0','\t','2','0','0']]))
    "a.bed" {} _ _ rfl rfl).1

/-- Counterexample to C9: the claim that no pipeline handle escapes to
callers is false for the concrete member `Stream`, which is a non-deleted
public accessor returning a reference to `buffered_inputstream_`, the
buffered line source of the pipeline. -/
theorem C9_counterexample_stream_escapes :
    ¬ (∀ m ∈ bedReaderPublicInterface,
        m.deleted = false → m.exposedHandle = none) := by
  decide

/-- C9 (amended): the raw byte source and the decompression filter never
escape to callers; the only pipeline handle that escapes is the buffered
line source, exposed solely through the `Stream` accessor. -/
theorem C9_only_stream_exposes_line_buffer :
    ∀ m ∈ bedReaderPublicInterface, m.deleted = false →
      m.exposedHandle ≠ some PipelineHandle.byteSource ∧
      m.exposedHandle ≠ some PipelineHandle.decompFilter ∧
      (m.exposedHandle ≠ none →
        m.memberName = "Stream" ∧
        m.exposedHandle = some PipelineHandle.lineBuffer) := by
  decide

/-- Witness for the amended C9 at the concrete member `Stream`. -/
theorem C9_only_stream_exposes_line_buffer_witness :
    ({ memberName := "Stream", deleted := false,
       exposedHandle := some PipelineHandle.lineBuffer,
       createsAliasingReader := false } : MemberDecl).exposedHandle
      ≠ some PipelineHandle.byteSource :=
  (C9_only_stream_exposes_line_buffer
    { memberName := "Stream", deleted := false,
      exposedHandle := some PipelineHandle.lineBuffer,
      createsAliasingReader := false }
    (by decide) rfl).1

/-- C10: copy construction and copy assignment are deleted, and every
interface member that would create a second reader sharing the same file
handle and stream state is deleted, so no available operation duplicates a
reader. -/
theorem C10_no_reader_duplication :
    (∀ m ∈ bedReaderPublicInterface,
      (m.memberName = "copy_constructor" ∨ m.memberName = "copy_assignment") →
        m.deleted = true) ∧
    (∀ m ∈ bedReaderPublicInterface,
      m.createsAliasingReader = true → m.deleted = true) := by
  decide

/-- Witness for C10 at the concrete copy constructor member. -/
theorem C10_no_reader_duplication_witness :
    ({ memberName := "copy_constructor", deleted := true,
       exposedHandle := none,
       createsAliasingReader := true } : MemberDecl).deleted = true :=
  C10_no_reader_duplication.1
    { memberName := "copy_constructor", deleted := true,
      exposedHandle := none, createsAliasingReader := true }
    (by decide) (Or.inl rfl)
